import Mathlib

/-!
Shallow embedding of `source/helpers/components/codeExample.ts`.

The embedded program is `generateCodeExample` together with its helpers
`getPaddings`, `getPadding`, `getTotalPadding` and `getCanSplit`.  JavaScript
numbers are modelled by `JSNum`: an exact rational together with the three
special values `-Infinity`, `+Infinity` and `NaN` that the program can produce
(`Math.max()` of an empty spread is `-Infinity`).  The arithmetic the program
performs is exact in this model; the program only adds, subtracts, divides by
the constants 110 and 2 and multiplies by 100, and none of the claims being
checked depends on binary floating-point rounding.

Rational arithmetic is spelled with `Rat.divInt` on numerators and
denominators (rather than `HAdd.hAdd` on `ℚ`) so that closed evaluations
reduce inside the kernel; the lemmas `qAdd_eq_add`, `qMul_eq_mul` and
`qDiv_eq_div` prove these are the exact field operations of `ℚ`.

Strings are Lean `String`s.  JavaScript's `String.prototype.split` with a
non-empty literal separator, `String.prototype.trim` and truthiness of
strings, numbers and `undefined` are embedded below (`jsSplit`, `jsTrim`,
`truthyOptStr`, `jsTruthy`).  `.length` of a string is modelled as its
character count; all inputs appearing in the claims are ASCII, where the two
agree with JavaScript's UTF-16 unit count.
-/

/-- Exact rational addition, written via `Rat.divInt` so it reduces in the
kernel; `qAdd_eq_add` below proves it is `ℚ` addition. -/

def qAdd (a b : ℚ) : ℚ := Rat.divInt (a.num * (b.den : ℤ) + b.num * (a.den : ℤ)) ((a.den : ℤ) * (b.den : ℤ))

/-- Exact rational multiplication via `Rat.divInt`. -/
def qMul (a b : ℚ) : ℚ := Rat.divInt (a.num * b.num) ((a.den : ℤ) * (b.den : ℤ))

/-- Exact rational division via `Rat.divInt`. -/
def qDiv (a b : ℚ) : ℚ := Rat.divInt (a.num * (b.den : ℤ)) ((a.den : ℤ) * b.num)

/-- Exact rational negation via `Rat.divInt`. -/
def qNeg (a : ℚ) : ℚ := Rat.divInt (-a.num) (a.den : ℤ)

/-- Model of a JavaScript number as produced by this program: an exact
rational or one of the IEEE special values. -/
inductive JSNum where
  | num (q : ℚ)
  | negInf
  | posInf
  | nan
deriving DecidableEq

/-- JavaScript `<` on numbers: `NaN` compares false, the infinities compare
in the usual order. -/
def jsLt (a b : JSNum) : Bool :=
  match a, b with
  | JSNum.nan, _ => false
  | _, JSNum.nan => false
  | JSNum.negInf, JSNum.negInf => false
  | JSNum.negInf, _ => true
  | _, JSNum.negInf => false
  | JSNum.posInf, _ => false
  | _, JSNum.posInf => true
  | JSNum.num x, JSNum.num y => decide (x < y)

/-- JavaScript `+` on numbers; `Infinity + (-Infinity)` is `NaN`. -/
def jsAdd (a b : JSNum) : JSNum :=
  match a, b with
  | JSNum.nan, _ => JSNum.nan
  | _, JSNum.nan => JSNum.nan
  | JSNum.posInf, JSNum.negInf => JSNum.nan
  | JSNum.negInf, JSNum.posInf => JSNum.nan
  | JSNum.posInf, _ => JSNum.posInf
  | _, JSNum.posInf => JSNum.posInf
  | JSNum.negInf, _ => JSNum.negInf
  | _, JSNum.negInf => JSNum.negInf
  | JSNum.num x, JSNum.num y => JSNum.num (qAdd x y)

/-- JavaScript unary minus on numbers. -/
def jsNeg : JSNum → JSNum
  | JSNum.nan => JSNum.nan
  | JSNum.posInf => JSNum.negInf
  | JSNum.negInf => JSNum.posInf
  | JSNum.num x => JSNum.num (qNeg x)

/-- JavaScript binary `-`, which is `a + (-b)` exactly. -/
def jsSub (a b : JSNum) : JSNum := jsAdd a (jsNeg b)

/-- JavaScript `*` on numbers; `0 * Infinity` is `NaN`. -/
def jsMul (a b : JSNum) : JSNum :=
  match a, b with
  | JSNum.nan, _ => JSNum.nan
  | _, JSNum.nan => JSNum.nan
  | JSNum.num x, JSNum.num y => JSNum.num (qMul x y)
  | JSNum.num x, JSNum.posInf => if 0 < x then JSNum.posInf else if x < 0 then JSNum.negInf else JSNum.nan
  | JSNum.num x, JSNum.negInf => if 0 < x then JSNum.negInf else if x < 0 then JSNum.posInf else JSNum.nan
  | JSNum.posInf, JSNum.num y => if 0 < y then JSNum.posInf else if y < 0 then JSNum.negInf else JSNum.nan
  | JSNum.negInf, JSNum.num y => if 0 < y then JSNum.negInf else if y < 0 then JSNum.posInf else JSNum.nan
  | JSNum.posInf, JSNum.posInf => JSNum.posInf
  | JSNum.posInf, JSNum.negInf => JSNum.negInf
  | JSNum.negInf, JSNum.posInf => JSNum.negInf
  | JSNum.negInf, JSNum.negInf => JSNum.posInf

/-- JavaScript `/` on numbers.  The program only ever divides by the positive
constants `110.0` and `2`; division by zero (where JavaScript consults the
sign of the zero) is mapped by the sign of the numerator and never reached. -/
def jsDiv (a b : JSNum) : JSNum :=
  match a, b with
  | JSNum.nan, _ => JSNum.nan
  | _, JSNum.nan => JSNum.nan
  | JSNum.num x, JSNum.num y =>
    if y = 0 then (if x = 0 then JSNum.nan else if 0 < x then JSNum.posInf else JSNum.negInf)
    else JSNum.num (qDiv x y)
  | JSNum.num _, JSNum.posInf => JSNum.num 0
  | JSNum.num _, JSNum.negInf => JSNum.num 0
  | JSNum.posInf, JSNum.num y => if 0 ≤ y then JSNum.posInf else JSNum.negInf
  | JSNum.negInf, JSNum.num y => if 0 ≤ y then JSNum.negInf else JSNum.posInf
  | _, _ => JSNum.nan

/-- Binary `Math.max`: `NaN` is absorbing, otherwise the larger argument. -/
def jsMax (a b : JSNum) : JSNum :=
  match a, b with
  | JSNum.nan, _ => JSNum.nan
  | _, JSNum.nan => JSNum.nan
  | x, y => if jsLt x y then y else x

/-- Variadic `Math.max(...list)`: fold of `jsMax` with identity `-Infinity`,
so `Math.max()` of an empty spread is `-Infinity` as in JavaScript. -/
def jsMaxList (l : List JSNum) : JSNum := l.foldl jsMax JSNum.negInf

/-- JavaScript truthiness of a number: `0` and `NaN` are falsy, everything
else (including the infinities) is truthy. -/
def jsTruthy : JSNum → Bool
  | JSNum.num q => decide (q ≠ 0)
  | JSNum.nan => false
  | _ => true

/-- Test whether `sep` is a leading prefix of `s`, returning the remainder
after it; this is the occurrence test of `String.prototype.split`. -/
def takeSep : List Char → List Char → Option (List Char)
  | [], s => some s
  | _ :: _, [] => none
  | p :: ps, c :: cs => if p = c then takeSep ps cs else none

/-- Worker for `jsSplit`; `fuel` bounds the recursion (one unit per input
character suffices for a non-empty separator) so the definition is
structural and evaluates in the kernel. -/
def jsSplitGo (sep : List Char) : ℕ → List Char → List Char → List (List Char)
  | 0, acc, s => [acc.reverse ++ s]
  | fuel + 1, acc, s =>
    match s with
    | [] => [acc.reverse]
    | c :: cs =>
      match takeSep sep s with
      | some rest => acc.reverse :: jsSplitGo sep fuel [] rest
      | none => jsSplitGo sep fuel (c :: acc) cs

/-- JavaScript `s.split(sep)` for a non-empty literal separator: the pieces
between consecutive non-overlapping leftmost occurrences of `sep`.  As in
JavaScript, a separator occurrence at the end contributes a trailing empty
piece, and a string with no occurrence yields the one-element list. -/
def jsSplit (sep s : String) : List String :=
  (jsSplitGo sep.toList (s.toList.length + 1) [] s.toList).map (fun l => String.mk l)

/-- Whitespace recognised by the embedding of `String.prototype.trim`: the
ASCII whitespace characters.  JavaScript also trims Unicode space
characters, which do not occur in this corpus. -/
def jsWhitespace (c : Char) : Bool :=
  c == ' ' || c == '\n' || c == '\t' || c == '\r' || c == '\x0b' || c == '\x0c'

/-- JavaScript `s.trim()`: strip leading and trailing whitespace. -/
def jsTrim (s : String) : String :=
  String.mk (((s.toList.dropWhile jsWhitespace).reverse.dropWhile jsWhitespace).reverse)

/-- Truthiness of a possibly-`undefined` JavaScript string: `undefined` and
the empty string are falsy. -/
def truthyOptStr : Option String → Bool
  | none => false
  | some s => !(s == "")

/-- Number of newline-delimited lines of a string, as the program computes
it: `s.split('\n').length` (so the empty string has one line). -/
def numLines (s : String) : ℤ := ((jsSplit ("\n") s).length : ℤ)

/-- Embeds the recurring expression `(examples[i] || '').split('\n').length`
(lines 158-160 and 250-251 of the source): the line count of the section at
index `i`, with a missing or empty section read as the empty string. -/
def linesAt (xs : List String) (i : ℕ) : ℤ := numLines (xs.getD i (""))

/-- Embeds `i === examples.length - 1` (lines 163-165): whether `i` is the
final index of the section list.  The comparison is over `ℤ` exactly as
JavaScript computes it, so an empty list (length `0`, last index `-1`) is
never "last". -/
def isLastAt (xs : List String) (i : ℕ) : Bool := ((i : ℤ) == (xs.length : ℤ) - 1)

/-- Embeds `getTotalPadding` (lines 239-256).  The JavaScript defaults
`sections1 ||= []` are no-ops here (arrays are always truthy and the typed
arguments are never `undefined`).  The `reduce` with initial value `0` over
ascending indices is a left fold. -/
def getTotalPadding (sections1 sections2 : List String) : ℤ :=
  (List.range (max sections1.length sections2.length)).foldl
    (fun sum i => sum + max (linesAt sections1 i) (linesAt sections2 i) + 2) 0

/-- Embeds `getPadding` (lines 213-233); the named-object parameters become
positional ones.  `Math.max(padding, 0)` is the final `max`. -/
def getPadding (isLastSection : Bool) (comparisonA comparisonB : List String) (lines maxLines : ℤ) : ℤ :=
  let padding : ℤ :=
    if isLastSection then getTotalPadding comparisonA comparisonB - lines - 2
    else if maxLines > lines then maxLines - lines else 0
  max padding 0

/-- Embeds lines 169-173: the maximum line count at index `i` over the
syntaxes for which `i` is not the last section.  `Math.max(a, b, c)` folds
to the right-nested binary maximum (`max` is associative). -/
def maxLinesAt (scssExamples sassExamples cssExamples : List String) (i : ℕ) : ℤ :=
  max (if isLastAt scssExamples i then 0 else linesAt scssExamples i)
    (max (if isLastAt sassExamples i then 0 else linesAt sassExamples i)
      (if isLastAt cssExamples i then 0 else linesAt cssExamples i))

/-- Result record of `getPaddings`. -/
structure Paddings where
  scssPaddings : List ℤ
  sassPaddings : List ℤ
  cssPaddings : List ℤ
deriving DecidableEq

/-- Embeds `getPaddings` (lines 144-207): one entry is pushed onto each of
the three arrays for every index below `maxSections`, so the `forEach` with
three `push`es is a `map` over `List.range maxSections` for each array. -/
def getPaddings (scssExamples sassExamples cssExamples : List String) : Paddings :=
  let maxSections := max scssExamples.length (max sassExamples.length cssExamples.length)
  { scssPaddings := (List.range maxSections).map (fun i =>
      getPadding (isLastAt scssExamples i) (sassExamples.drop i) (cssExamples.drop i)
        (linesAt scssExamples i) (maxLinesAt scssExamples sassExamples cssExamples i)),
    sassPaddings := (List.range maxSections).map (fun i =>
      getPadding (isLastAt sassExamples i) (scssExamples.drop i) (cssExamples.drop i)
        (linesAt sassExamples i) (maxLinesAt scssExamples sassExamples cssExamples i)),
    cssPaddings := (List.range maxSections).map (fun i =>
      getPadding (isLastAt cssExamples i) (scssExamples.drop i) (sassExamples.drop i)
        (linesAt cssExamples i) (maxLinesAt scssExamples sassExamples cssExamples i)) }

/-- Character count of a string, embedding JavaScript `line.length`; the two
agree on the ASCII strings this corpus contains. -/
def jsLength (s : String) : ℚ := ((s.toList.length : ℤ) : ℚ)

/-- Result record of `getCanSplit`. -/
structure CanSplitResult where
  canSplit : Bool
  maxSourceWidth : JSNum
  maxCSSWidth : JSNum
deriving DecidableEq

/-- Embeds `getCanSplit` (lines 258-280).  `Boolean(maxCSSWidth && cond)` is
`cond` when `maxCSSWidth` is truthy and `false` otherwise; note that
`Math.max()` of an empty spread is `-Infinity`, which is truthy. -/
def getCanSplit (scssExamples sassExamples cssExamples : List String) : CanSplitResult :=
  let exampleSourceLengths := (scssExamples ++ sassExamples).flatMap
    (fun source => (jsSplit ("\n") source).map (fun line => JSNum.num (jsLength line)))
  let cssSourceLengths := cssExamples.flatMap
    (fun source => (jsSplit ("\n") source).map (fun line => JSNum.num (jsLength line)))
  let maxSourceWidth := jsMaxList exampleSourceLengths
  let maxCSSWidth := jsMaxList cssSourceLengths
  { canSplit :=
      if jsTruthy maxCSSWidth then jsLt (jsAdd maxSourceWidth maxCSSWidth) (JSNum.num 110)
      else false,
    maxSourceWidth := maxSourceWidth,
    maxCSSWidth := maxCSSWidth }

/-- The `syntax` parameter of `generateCodeExample`; its source name is a
reserved word here, and `none` is the `null` (dual-syntax) case. -/
inductive Lang where
  | sass
  | scss
deriving DecidableEq

/-- Embeds line 67: `contents.split('\n===\n')`. -/
def splitContentsOf (contents : String) : List String := jsSplit ("\n===\n") contents

/-- Embeds the `scssContents` assignment of the `switch` (lines 70-87);
`none` models `undefined`. -/
def scssContentsOf (contents : String) (lang : Option Lang) : Option String :=
  match lang with
  | some Lang.scss => (splitContentsOf contents).get? 0
  | some Lang.sass => none
  | none => (splitContentsOf contents).get? 0

/-- Embeds the `sassContents` assignment of the `switch` (lines 70-87). -/
def sassContentsOf (contents : String) (lang : Option Lang) : Option String :=
  match lang with
  | some Lang.scss => none
  | some Lang.sass => (splitContentsOf contents).get? 0
  | none => (splitContentsOf contents).get? 1

/-- Embeds the `cssContents` assignment of the `switch` (lines 70-87). -/
def cssContentsOf (contents : String) (lang : Option Lang) : Option String :=
  match lang with
  | some Lang.scss => (splitContentsOf contents).get? 1
  | some Lang.sass => (splitContentsOf contents).get? 1
  | none => (splitContentsOf contents).get? 2

/-- Embeds `contents?.split('\n---\n').map(str => str.trim()) ?? []`
(lines 89-92 and 104-105): the section set of a variant block. -/
def examplesOf : Option String → List String
  | none => []
  | some s => (jsSplit ("\n---\n") s).map jsTrim

/-- The SCSS section set (lines 89-90). -/
def scssExamplesOf (contents : String) (lang : Option Lang) : List String :=
  examplesOf (scssContentsOf contents lang)

/-- The Sass section set (lines 91-92). -/
def sassExamplesOf (contents : String) (lang : Option Lang) : List String :=
  examplesOf (sassContentsOf contents lang)

/-- Embeds line 95: `scssContents ? scssExamples : sassExamples`, the
section set designated as compiler input. -/
def designatedSectionsOf (contents : String) (lang : Option Lang) : List String :=
  if truthyOptStr (scssContentsOf contents lang) then scssExamplesOf contents lang
  else sassExamplesOf contents lang

/-- The two `throw new Error(...)` sites of `generateCodeExample`, kept
distinct: line 84 (missing `===` in dual-syntax mode) and line 97 (cannot
auto-generate CSS). -/
inductive CodeError where
  | malformedInput (msg : String)
  | cannotAutoGenerate (msg : String)
deriving DecidableEq

/-- The record returned by `generateCodeExample` (lines 128-137). -/
structure CodeExample where
  scss : List String
  sass : List String
  css : List String
  scssPaddings : List ℤ
  sassPaddings : List ℤ
  cssPaddings : List ℤ
  canSplit : Bool
  splitLocation : Option JSNum
deriving DecidableEq

/-- Embeds lines 104-137: from the resolved `cssContents` onward, the
assembly of the returned record, including the `splitLocation` computation
(lines 118-126).  Note the source's `else` branch writes
`0.5 + (... / 110.0 / 2) * 100`, with the `0.5` not scaled by 100. -/
def assembleCodeExample (scssExamples sassExamples : List String) (cssContents : Option String) : CodeExample :=
  let cssExamples := examplesOf cssContents
  let p := getPaddings scssExamples sassExamples cssExamples
  let cs := getCanSplit scssExamples sassExamples cssExamples
  let splitLocation : Option JSNum :=
    if cs.canSplit then
      if jsLt cs.maxSourceWidth (JSNum.num 55) && jsLt cs.maxCSSWidth (JSNum.num 55) then
        some (jsMul (JSNum.num (Rat.divInt 1 2)) (JSNum.num 100))
      else
        some (jsAdd (JSNum.num (Rat.divInt 1 2))
          (jsMul (jsDiv (jsDiv (jsSub cs.maxSourceWidth cs.maxCSSWidth) (JSNum.num 110)) (JSNum.num 2)) (JSNum.num 100)))
    else none
  { scss := scssExamples, sass := sassExamples, css := cssExamples,
    scssPaddings := p.scssPaddings, sassPaddings := p.sassPaddings, cssPaddings := p.cssPaddings,
    canSplit := cs.canSplit, splitLocation := splitLocation }

/-- Result of a run of `generateCodeExample`: the returned record or the
thrown error, together with the calls made to the external compiler (the
`sass.compileString` collaborator), in order, each as (source text, syntax
option).  The single call site is on lines 99-101. -/
structure GenResult where
  result : Except CodeError CodeExample
  compilerCalls : List (String × String)

/-- Embeds `generateCodeExample` (lines 62-138), parametrised by the
external compiler collaborator.  The dual-syntax `!sassContents` check is
hoisted out of the `switch` (the `switch` only assigns; the check is the
first effect).  `!cssContents && autogenCSS` triggers auto-generation, the
designated sections must number exactly one, and the compiler is called with
`sections[0]` and `'indented'` for `sass` input, `'scss'` otherwise. -/
def generateCodeExample (compiler : String → String → String) (contents : String) (autogenCSS : Bool) (lang : Option Lang) : GenResult :=
  if decide (lang = none) && !truthyOptStr (sassContentsOf contents lang) then
    { result := Except.error (CodeError.malformedInput (("Couldn\x27t find === in:\n") ++ contents)),
      compilerCalls := [] }
  else
    if !truthyOptStr (cssContentsOf contents lang) && autogenCSS then
      let sections := designatedSectionsOf contents lang
      if sections.length != 1 then
        { result := Except.error (CodeError.cannotAutoGenerate ("Can\x27t auto-generate CSS from more than one SCSS block.")),
          compilerCalls := [] }
      else
        let srcText := sections.getD 0 ("")
        let synDecl := if lang = some Lang.sass then ("indented") else ("scss")
        { result := Except.ok (assembleCodeExample (scssExamplesOf contents lang) (sassExamplesOf contents lang) (some (compiler srcText synDecl))),
          compilerCalls := [(srcText, synDecl)] }
    else
      { result := Except.ok (assembleCodeExample (scssExamplesOf contents lang) (sassExamplesOf contents lang) (cssContentsOf contents lang)),
        compilerCalls := [] }

/-- Recognises the dual-syntax parse error among run results. -/
def isMalformed : Except CodeError CodeExample → Bool
  | Except.error (CodeError.malformedInput _) => true
  | _ => false

deriving instance DecidableEq for Except

theorem qAdd_eq_add (a b : ℚ) : qAdd a b = a + b := by
  have ha : (a.den : ℚ) ≠ 0 := by positivity
  have hb : (b.den : ℚ) ≠ 0 := by positivity
  rw [qAdd, Rat.divInt_eq_div]
  push_cast
  conv_rhs => rw [← Rat.num_div_den a, ← Rat.num_div_den b]
  field_simp

theorem qMul_eq_mul (a b : ℚ) : qMul a b = a * b := by
  have ha : (a.den : ℚ) ≠ 0 := by positivity
  have hb : (b.den : ℚ) ≠ 0 := by positivity
  rw [qMul, Rat.divInt_eq_div]
  push_cast
  conv_rhs => rw [← Rat.num_div_den a, ← Rat.num_div_den b]
  field_simp

theorem qDiv_eq_div (a b : ℚ) (hb : b ≠ 0) : qDiv a b = a / b := by
  have ha : (a.den : ℚ) ≠ 0 := by positivity
  have hbd : (b.den : ℚ) ≠ 0 := by positivity
  have hbn : (b.num : ℚ) ≠ 0 := by
    exact_mod_cast fun h => hb (by exact_mod_cast Rat.num_eq_zero.mp (by exact_mod_cast h))
  rw [qDiv, Rat.divInt_eq_div]
  push_cast
  conv_rhs => rw [← Rat.num_div_den a, ← Rat.num_div_den b]
  field_simp

theorem qNeg_eq_neg (a : ℚ) : qNeg a = -a := by
  rw [qNeg, Rat.divInt_eq_div]
  push_cast
  rw [neg_div, Rat.num_div_den]

example : jsSplit ("\n===\n") (".foo\n===\n.bar") = [".foo", ".bar"] := by decide

example : jsSplit ("\n===\n") ("x\n===\n") = ["x", ""] := by decide

example : jsSplit ("\n===\n") ("===\nfoo") = ["===\nfoo"] := by decide

example : jsSplit ("\n---\n") ("") = [""] := by decide

example : jsTrim ("  a b\n") = "a b" := by decide

example : jsAdd (JSNum.num 1) JSNum.negInf = JSNum.negInf := by decide

example : jsMaxList [] = JSNum.negInf := by decide

example : jsMul (JSNum.num (Rat.divInt 1 2)) (JSNum.num 100) = JSNum.num 50 := by decide

example : getPaddings [".foo"] [".foo\n  color: blue"] [] =

    { scssPaddings := [1], sassPaddings := [0], cssPaddings := [0] } := by decide
example : (getCanSplit [".foo"] [] []).maxCSSWidth = JSNum.negInf := by decide

theorem linesAt_nonneg (xs : List String) (i : ℕ) : 0 ≤ linesAt xs i := by
  simp only [linesAt, numLines]
  exact Int.natCast_nonneg _

theorem linesAt_drop (xs : List String) (i j : ℕ) : linesAt (xs.drop i) j = linesAt xs (i + j) := by
  simp only [linesAt, List.getD, List.get?_eq_getElem?, List.getElem?_drop]

theorem foldl_step_eq_sum (g : ℕ → ℤ) (l : List ℕ) (init : ℤ) :
    l.foldl (fun s i => s + g i + 2) init = init + (l.map (fun i => g i + 2)).sum := by
  induction l generalizing init with
  | nil => simp
  | cons x xs ih =>
    simp only [List.foldl_cons, List.map_cons, List.sum_cons, ih]
    ring

theorem getTotalPadding_eq_sum (A B : List String) :
    getTotalPadding A B =
      ((List.range (max A.length B.length)).map
        (fun i => max (linesAt A i) (linesAt B i) + 2)).sum := by
  rw [getTotalPadding]
  simpa using foldl_step_eq_sum (fun i => max (linesAt A i) (linesAt B i)) (List.range (max A.length B.length)) 0

theorem sum_range_map_mono (g : ℕ → ℤ) (hg : ∀ i, 0 ≤ g i) (k n : ℕ) (hkn : k ≤ n) :
    ((List.range k).map g).sum ≤ ((List.range n).map g).sum := by
  obtain ⟨m, rfl⟩ : ∃ m, n = k + m := ⟨n - k, by omega⟩
  rw [List.range_add, List.map_append, List.sum_append]
  have h2 : 0 ≤ (((List.range m).map (k + ·)).map g).sum := by
    apply List.sum_nonneg
    intro x hx
    obtain ⟨y, _, rfl⟩ := List.mem_map.mp hx
    exact hg y
  linarith

theorem getPadding_tail_cover (A B : List String) (lines maxLines : ℤ) (k : ℕ)
    (hk : k ≤ max A.length B.length) :
    ((List.range k).map (fun j => max (linesAt A j) (linesAt B j) + 2)).sum ≤
      getPadding true A B lines maxLines + lines + 2 := by
  have h1 : ((List.range k).map (fun j => max (linesAt A j) (linesAt B j) + 2)).sum ≤
      getTotalPadding A B := by
    rw [getTotalPadding_eq_sum]
    apply sum_range_map_mono _ _ _ _ hk
    intro i
    have := linesAt_nonneg A i
    have := le_max_left (linesAt A i) (linesAt B i)
    omega
  have h2 : getTotalPadding A B ≤ getPadding true A B lines maxLines + lines + 2 := by
    simp only [getPadding, if_pos]
    have := le_max_left (getTotalPadding A B - lines - 2) (0 : ℤ)
    omega
  omega

theorem range_map_getD (n : ℕ) (f : ℕ → ℤ) (i : ℕ) (h : i < n) :
    ((List.range n).map f).getD i 0 = f i := by
  simp only [List.getD, List.get?_eq_getElem?, List.getElem?_map, List.getElem?_range h]
  rfl

theorem isLastAt_last (V : List String) (hV : V ≠ []) : isLastAt V (V.length - 1) = true := by
  have h0 : 0 < V.length := List.length_pos.mpr hV
  simp only [isLastAt, beq_iff_eq]
  omega

theorem tail_padding_general (V A B : List String) (M : ℤ) (hV : V ≠ []) (k : ℕ)
    (hk : k ≤ max (A.length - (V.length - 1)) (B.length - (V.length - 1))) :
    ((List.range k).map
        (fun j => max (linesAt A ((V.length - 1) + j)) (linesAt B ((V.length - 1) + j)) + 2)).sum ≤
      getPadding (isLastAt V (V.length - 1)) (A.drop (V.length - 1)) (B.drop (V.length - 1))
          (linesAt V (V.length - 1)) M +
        linesAt V (V.length - 1) + 2 := by
  rw [isLastAt_last V hV]
  have hsum : ((List.range k).map
      (fun j => max (linesAt A ((V.length - 1) + j)) (linesAt B ((V.length - 1) + j)) + 2)).sum =
      ((List.range k).map
        (fun j => max (linesAt (A.drop (V.length - 1)) j) (linesAt (B.drop (V.length - 1)) j) + 2)).sum := by
    congr 1
    apply List.map_congr_left
    intro j _
    rw [linesAt_drop, linesAt_drop]
  rw [hsum]
  apply getPadding_tail_cover
  simpa [List.length_drop] using hk

/-- C10: splitting is on the infix strings "\n===\n" and "\n---\n", so a
`===` line at the very start of the input stays part of the first variant
block (no empty leading block arises), and likewise a leading `---` line
stays part of its first section.  Checked on the concrete inputs of the
claim: "===\nfoo" parses to a single block; in the full pipeline on
"===\nA\n===\nB" the first line `===` remains inside the first SCSS
section. -/
theorem C10_separator_is_infix :
    (jsSplit ("\n===\n") ("===\nfoo") = ["===\nfoo"])
    ∧ (jsSplit ("\n---\n") ("---\nX") = ["---\nX"])
    ∧ ((generateCodeExample (fun _ _ => ("")) ("===\nA\n===\nB") false none).result.toOption.map
        CodeExample.scss = some ["===\nA"])
    ∧ ((generateCodeExample (fun _ _ => ("")) ("===\nA\n===\nB") false none).result.toOption.map
        CodeExample.sass = some ["B"]) := by
  refine ⟨by decide, by decide, by decide, by decide⟩

/-- C3 counterexample: with section sets of lengths 1, 1, 0 the CSS padding
table has length 1, not the CSS section set's length 0 — `getPaddings`
pushes one entry per index below the maximum section count onto all three
tables. -/
theorem C3_counterexample :
    (getPaddings ["a"] ["b"] []).cssPaddings.length = 1
    ∧ ¬((getPaddings ["a"] ["b"] []).cssPaddings.length = ([] : List String).length) := by
  refine ⟨by decide, by decide⟩

/-- C3 amended: every padding table has length equal to the maximum of the
three section-set lengths (hence equal to its own section set's length
exactly when that set is at least as long as the other two). -/
theorem C3_paddings_length (scssExamples sassExamples cssExamples : List String) :
    ((getPaddings scssExamples sassExamples cssExamples).scssPaddings.length =
        max scssExamples.length (max sassExamples.length cssExamples.length))
    ∧ ((getPaddings scssExamples sassExamples cssExamples).sassPaddings.length =
        max scssExamples.length (max sassExamples.length cssExamples.length))
    ∧ ((getPaddings scssExamples sassExamples cssExamples).cssPaddings.length =
        max scssExamples.length (max sassExamples.length cssExamples.length)) := by
  refine ⟨?_, ?_, ?_⟩ <;> simp [getPaddings]

/-- C4 counterexample: the per-index line count of a variant with no section
at that index is 1, not 0 — the missing section is read as the empty string,
and `''.split('\n').length` is 1. -/
theorem C4_counterexample :
    linesAt ([] : List String) 0 = 1 ∧ ¬(linesAt ([] : List String) 0 = 0) := by
  refine ⟨by decide, by decide⟩

/-- C4 amended: `lines(i)` equals the number of newline-delimited lines of
the section at index `i` when one is present, and equals 1 (the line count
of the empty string) when the variant has no section at that index; the
same `linesAt` is the count used inside `getTotalPadding`. -/
theorem C4_lines_amended (xs : List String) (i : ℕ) :
    (∀ s, xs.get? i = some s → linesAt xs i = numLines s)
    ∧ (xs.get? i = none → linesAt xs i = 1) := by
  constructor
  · intro s hs
    simp only [linesAt, List.getD, hs, Option.getD_some]
  · intro h
    simp only [linesAt, List.getD, h, Option.getD_none]
    decide

/-- C4 witness: the amended statement at a concrete list, with a present and
an absent index. -/
theorem C4_lines_witness :
    linesAt ["a\nb"] 0 = numLines ("a\nb") ∧ linesAt ["a\nb"] 1 = 1 :=
  ⟨(C4_lines_amended ["a\nb"] 0).1 ("a\nb") rfl, (C4_lines_amended ["a\nb"] 1).2 rfl⟩

/-- C2: evaluation of `getCanSplit` on the resolved section sets of the
spec's Example 1 (empty compiled-output set).  `Math.max()` of the empty
CSS width list is `-Infinity`, which is truthy and sinks the sum below 110,
so the code returns `canSplit = true` — against the claim, which demands
`canSplit = false` when there are no compiled-output sections. -/
theorem C2_code_behavior :
    getCanSplit [".foo\x7bcolor:blue\x7d"] [".foo\n  color: blue"] [] =
      { canSplit := true, maxSourceWidth := JSNum.num 16, maxCSSWidth := JSNum.negInf }
    ∧ ¬((getCanSplit [".foo\x7bcolor:blue\x7d"] [".foo\n  color: blue"] []).canSplit = false) := by
  refine ⟨by decide, by decide⟩

/-- C5 counterexample: on the spec's Example 1 input the code produces an
SCSS padding table of [1] (the one-line SCSS section pads up to the two-line
Sass section) and `canSplit = true` (empty CSS gives `maxCSSWidth =
-Infinity`, which is truthy), contradicting the claimed [0] paddings and
`canSplit = false`. -/
theorem C5_counterexample :
    ((generateCodeExample (fun _ _ => ("")) (".foo\x7bcolor:blue\x7d\n===\n.foo\n  color: blue") false
          none).result.toOption.map CodeExample.scssPaddings = some [1])
    ∧ ¬((generateCodeExample (fun _ _ => ("")) (".foo\x7bcolor:blue\x7d\n===\n.foo\n  color: blue") false
          none).result.toOption.map CodeExample.scssPaddings = some [0])
    ∧ ((generateCodeExample (fun _ _ => ("")) (".foo\x7bcolor:blue\x7d\n===\n.foo\n  color: blue") false
          none).result.toOption.map CodeExample.canSplit = some true)
    ∧ ¬((generateCodeExample (fun _ _ => ("")) (".foo\x7bcolor:blue\x7d\n===\n.foo\n  color: blue") false
          none).result.toOption.map CodeExample.canSplit = some false) := by
  refine ⟨by decide, by decide, by decide, by decide⟩

/-- C5 amended: the full evaluation of the pipeline on Example 1's input:
section sets as claimed; paddings [1], [0], [0]; and, through the
`-Infinity` slip in `getCanSplit`, `canSplit = true` with
`splitLocation = 50`; the compiler collaborator is not invoked. -/
theorem C5_example1_value :
    ((generateCodeExample (fun _ _ => ("")) (".foo\x7bcolor:blue\x7d\n===\n.foo\n  color: blue") false
          none).result =
        Except.ok
          { scss := [".foo\x7bcolor:blue\x7d"], sass := [".foo\n  color: blue"], css := [],
            scssPaddings := [1], sassPaddings := [0], cssPaddings := [0],
            canSplit := true, splitLocation := some (JSNum.num 50) })
    ∧ (generateCodeExample (fun _ _ => ("")) (".foo\x7bcolor:blue\x7d\n===\n.foo\n  color: blue") false
          none).compilerCalls = [] := by
  refine ⟨by decide, by decide⟩

/-- C1: evaluation of the pipeline at a failing input for the claim's
splitLocation formula.  Source width 1, CSS width 56 (so `canSplit` holds
and not both widths are under 55).  The code computes
`0.5 + ((1 - 56) / 110 / 2) * 100 = -24.5`: the `0.5` is left on the
fraction scale while the rest is scaled to percent, so the result is
neither the claimed `50 + ((maxSourceWidth - maxCSSWidth) / 110 / 2) * 100
= 25` nor a percentage between 0 and 100. -/
theorem C1_code_behavior :
    ((generateCodeExample (fun _ _ => (""))
          ("x\n===\nyyyyyyyyyyyyyyyyyyyyyyyyyyyyyyyyyyyyyyyyyyyyyyyyyyyyyyyy") false
          (some Lang.scss)).result.toOption.map CodeExample.canSplit = some true)
    ∧ ((generateCodeExample (fun _ _ => (""))
          ("x\n===\nyyyyyyyyyyyyyyyyyyyyyyyyyyyyyyyyyyyyyyyyyyyyyyyyyyyyyyyy") false
          (some Lang.scss)).result.toOption.map CodeExample.splitLocation =
        some (some (JSNum.num (Rat.divInt (-49) 2))))
    ∧ (Rat.divInt (-49) 2 : ℚ) ≠ 50 + (((1 : ℚ) - 56) / 110 / 2) * 100
    ∧ ¬((0 : ℚ) ≤ Rat.divInt (-49) 2) := by
  refine ⟨by decide, by decide, ?_, ?_⟩
  · rw [Rat.divInt_eq_div]
    norm_num
  · rw [Rat.divInt_eq_div]
    norm_num

theorem isMalformed_of_ok (c : CodeExample) : isMalformed (Except.ok c) = false := rfl

theorem isMalformed_of_cannotAutoGenerate (m : String) :
    isMalformed (Except.error (CodeError.cannotAutoGenerate m)) = false := rfl

/-- C7 counterexample: the input "x\n===\n" contains the `===` separator
line (its split has two pieces), yet in dual-syntax mode the pipeline still
throws the malformed-input error, because the secondary block is the empty
string and `!sassContents` is true for empty strings as well as for
`undefined`. -/
theorem C7_counterexample :
    ((generateCodeExample (fun _ _ => ("")) ("x\n===\n") false none).result =
        Except.error (CodeError.malformedInput ("Couldn\x27t find === in:\nx\n===\n")))
    ∧ (jsSplit ("\n===\n") ("x\n===\n")).length = 2 := by
  refine ⟨by decide, by decide⟩

/-- C7 amended: the pipeline fails with the malformed-input error iff
dual-syntax mode is requested and the secondary-syntax block is absent or
empty (`undefined` when no "\n===\n" infix occurs, or the empty string);
in single-syntax mode the absence of `===` raises no error, and with
`autogenCSS = false` the input "a\n---\nb" in scss mode yields the SCSS
section set of length 2 and an empty compiled-output section set. -/
theorem C7_malformed_iff :
    (∀ (compiler : String → String → String) (contents : String) (autogenCSS : Bool)
        (lang : Option Lang),
        isMalformed (generateCodeExample compiler contents autogenCSS lang).result = true ↔
          (lang = none ∧ truthyOptStr ((splitContentsOf contents).get? 1) = false))
    ∧ ((generateCodeExample (fun _ _ => ("")) ("a\n---\nb") false (some Lang.scss)).result.toOption.map
        CodeExample.scss = some ["a", "b"])
    ∧ ((generateCodeExample (fun _ _ => ("")) ("a\n---\nb") false (some Lang.scss)).result.toOption.map
        CodeExample.css = some []) := by
  refine ⟨?_, by decide, by decide⟩
  intro compiler contents autogenCSS lang
  constructor
  · intro h
    unfold generateCodeExample at h
    by_cases h1 : (decide (lang = none) && !truthyOptStr (sassContentsOf contents lang)) = true
    · rw [Bool.and_eq_true, decide_eq_true_eq, Bool.not_eq_true'] at h1
      obtain ⟨hl, hs⟩ := h1
      subst hl
      exact ⟨rfl, hs⟩
    · rw [if_neg (by simp [h1])] at h
      split at h
      all_goals simp [apply_ite GenResult.result, apply_ite isMalformed, isMalformed_of_ok,
        isMalformed_of_cannotAutoGenerate] at h
  · rintro ⟨rfl, h2⟩
    unfold generateCodeExample
    rw [if_pos]
    · rfl
    · have hsass : sassContentsOf contents none = (splitContentsOf contents).get? 1 := rfl
      rw [Bool.and_eq_true, decide_eq_true_eq, Bool.not_eq_true', hsass]
      exact ⟨rfl, h2⟩

/-- C7 witness: the amended iff applied at a concrete dual-syntax input with
no `===` separator, which the pipeline rejects as malformed. -/
theorem C7_malformed_witness :
    isMalformed (generateCodeExample (fun _ _ => ("")) ("abc") true none).result = true :=
  (C7_malformed_iff.1 (fun _ _ => ("")) ("abc") true none).mpr ⟨rfl, by decide⟩

/-- C8: when auto-derivation is requested, no compiled-output block was
supplied, parsing has succeeded (the dual-syntax malformed-input check does
not fire), and the designated source syntax's section set has more than one
section, the pipeline fails with the cannot-auto-generate error and the
compiler collaborator is never invoked — for every compiler. -/
theorem C8_cannot_autogenerate (compiler : String → String → String) (contents : String)
    (lang : Option Lang)
    (hmal : ¬(lang = none ∧ truthyOptStr (sassContentsOf contents lang) = false))
    (hcss : cssContentsOf contents lang = none)
    (hlen : 1 < (designatedSectionsOf contents lang).length) :
    ((generateCodeExample compiler contents true lang).result =
        Except.error
          (CodeError.cannotAutoGenerate ("Can\x27t auto-generate CSS from more than one SCSS block.")))
    ∧ (generateCodeExample compiler contents true lang).compilerCalls = [] := by
  have h1 : (decide (lang = none) && !truthyOptStr (sassContentsOf contents lang)) = false := by
    rcases hdec : decide (lang = none) with _ | _
    · simp
    · rw [decide_eq_true_eq] at hdec
      have ht : truthyOptStr (sassContentsOf contents lang) = true := by
        by_contra hh
        exact hmal ⟨hdec, by simpa using hh⟩
      simp [ht]
  have h2 : truthyOptStr (cssContentsOf contents lang) = false := by rw [hcss]; rfl
  have h3 : ((designatedSectionsOf contents lang).length != 1) = true := by
    rw [bne_iff_ne]
    omega
  unfold generateCodeExample
  rw [if_neg (by simp [h1])]
  rw [if_pos (by simp [h2])]
  rw [if_pos h3]
  exact ⟨rfl, rfl⟩

/-- C8 witness: a dual-syntax input whose SCSS block has two sections and no
CSS block, with auto-generation requested: the run fails with the
cannot-auto-generate error and makes no compiler call. -/
theorem C8_cannot_autogenerate_witness :
    ((generateCodeExample (fun _ _ => ("z")) ("a\n---\nb\n===\nc") true none).result =
        Except.error
          (CodeError.cannotAutoGenerate ("Can\x27t auto-generate CSS from more than one SCSS block.")))
    ∧ (generateCodeExample (fun _ _ => ("z")) ("a\n---\nb\n===\nc") true none).compilerCalls = [] :=
  C8_cannot_autogenerate (fun _ _ => ("z")) ("a\n---\nb\n===\nc") none (by decide) (by decide)
    (by decide)

/-- C9 counterexample: with the compiler collaborator returning
"x\n---\ny", the compiled-output section set is ["x", "y"], not one section
holding the returned text: the return value is re-split on "\n---\n" and
trimmed before becoming the compiled-output section set. -/
theorem C9_counterexample :
    ((generateCodeExample (fun _ _ => ("x\n---\ny")) (".a\x7bcolor:red\x7d") true
          (some Lang.scss)).result.toOption.map CodeExample.css = some ["x", "y"])
    ∧ ¬((generateCodeExample (fun _ _ => ("x\n---\ny")) (".a\x7bcolor:red\x7d") true
          (some Lang.scss)).result.toOption.map CodeExample.css = some ["x\n---\ny"])
    ∧ (generateCodeExample (fun _ _ => ("x\n---\ny")) (".a\x7bcolor:red\x7d") true
          (some Lang.scss)).compilerCalls = [(".a\x7bcolor:red\x7d", "scss")] := by
  refine ⟨by decide, by decide, by decide⟩

/-- C9 amended: when auto-derivation is requested, no compiled-output block
was supplied, parsing has succeeded, and the designated section set has
exactly one section, the compiler collaborator is invoked exactly once, with
that section's text and the declaration of its syntax ("indented" for sass
input, "scss" otherwise), and the compiled-output section set is the
compiler's returned text split on "\n---\n" with each piece trimmed (hence
exactly one section equal to the returned text whenever that text is
trim-stable and contains no section separator). -/
theorem C9_compiler_call (compiler : String → String → String) (contents : String)
    (lang : Option Lang)
    (hmal : ¬(lang = none ∧ truthyOptStr (sassContentsOf contents lang) = false))
    (hcss : cssContentsOf contents lang = none)
    (hone : (designatedSectionsOf contents lang).length = 1) :
    ((generateCodeExample compiler contents true lang).compilerCalls =
        [((designatedSectionsOf contents lang).getD 0 (""),
          if lang = some Lang.sass then ("indented") else ("scss"))])
    ∧ ((generateCodeExample compiler contents true lang).result.toOption.map CodeExample.css =
        some ((jsSplit ("\n---\n")
            (compiler ((designatedSectionsOf contents lang).getD 0 (""))
              (if lang = some Lang.sass then ("indented") else ("scss")))).map jsTrim)) := by
  have h1 : (decide (lang = none) && !truthyOptStr (sassContentsOf contents lang)) = false := by
    rcases hdec : decide (lang = none) with _ | _
    · simp
    · rw [decide_eq_true_eq] at hdec
      have ht : truthyOptStr (sassContentsOf contents lang) = true := by
        by_contra hh
        exact hmal ⟨hdec, by simpa using hh⟩
      simp [ht]
  have h2 : truthyOptStr (cssContentsOf contents lang) = false := by rw [hcss]; rfl
  have h3 : ((designatedSectionsOf contents lang).length != 1) = false := by
    rw [bne_eq_false_iff_eq]
    omega
  unfold generateCodeExample
  rw [if_neg (by simp [h1])]
  rw [if_pos (by simp [h2])]
  rw [if_neg (by simp [h3])]
  exact ⟨rfl, rfl⟩

/-- C9 witness: the amended statement at a concrete scss-mode input with one
section and a concrete compiler return value. -/
theorem C9_compiler_call_witness :
    ((generateCodeExample (fun _ _ => ("z")) (".a\x7bcolor:red\x7d") true
          (some Lang.scss)).compilerCalls = [(".a\x7bcolor:red\x7d", "scss")])
    ∧ ((generateCodeExample (fun _ _ => ("z")) (".a\x7bcolor:red\x7d") true
          (some Lang.scss)).result.toOption.map CodeExample.css = some ["z"]) := by
  have h := C9_compiler_call (fun _ _ => ("z")) (".a\x7bcolor:red\x7d") (some Lang.scss)
    (by decide) (by decide) (by decide)
  exact ⟨h.1.trans (by decide), h.2.trans (by decide)⟩

/-- C6 counterexample: with SCSS = ["a"] (one section, one line) and Sass =
["b\nc\nd", "e"] (two sections), the last SCSS padding is 5 and its line
count 1, so padding plus lines is 6 — strictly below the total remaining
rendered height 8 = (3 + 2) + (1 + 2) of the longer variant's sections from
the SCSS variant's last index onward.  The code balances
`padding + lines + 2` against that height, so the claim's left side falls
short by exactly the section's own two lines of spacing. -/
theorem C6_counterexample :
    (getPaddings ["a"] ["b\nc\nd", "e"] []).scssPaddings.getD 0 0 + linesAt ["a"] 0 <
      ((List.range 2).map
        (fun j => max (linesAt ["b\nc\nd", "e"] j) (linesAt ([] : List String) j) + 2)).sum := by
  decide

/-- C6 amended: for any variant whose section set is shorter than another
variant's, the computed padding of its last section plus that section's own
line count **plus 2** (the section's own spacing, which the code's
`totalPadding - lines - 2` accounts for) is at least the total remaining
rendered height of the longer variant's remaining sections: the sum, over
the indices from the short variant's last index to the end of the longer
variant, of the maximum line count of the two comparison variants at that
index plus 2.  All six (short, long) variant pairs are covered. -/
theorem C6_tail_padding (a b c : List String) :
    (a ≠ [] → a.length < b.length →
      ((List.range (b.length - (a.length - 1))).map
          (fun j => max (linesAt b ((a.length - 1) + j)) (linesAt c ((a.length - 1) + j)) + 2)).sum ≤
        (getPaddings a b c).scssPaddings.getD (a.length - 1) 0 + linesAt a (a.length - 1) + 2)
    ∧ (a ≠ [] → a.length < c.length →
      ((List.range (c.length - (a.length - 1))).map
          (fun j => max (linesAt b ((a.length - 1) + j)) (linesAt c ((a.length - 1) + j)) + 2)).sum ≤
        (getPaddings a b c).scssPaddings.getD (a.length - 1) 0 + linesAt a (a.length - 1) + 2)
    ∧ (b ≠ [] → b.length < a.length →
      ((List.range (a.length - (b.length - 1))).map
          (fun j => max (linesAt a ((b.length - 1) + j)) (linesAt c ((b.length - 1) + j)) + 2)).sum ≤
        (getPaddings a b c).sassPaddings.getD (b.length - 1) 0 + linesAt b (b.length - 1) + 2)
    ∧ (b ≠ [] → b.length < c.length →
      ((List.range (c.length - (b.length - 1))).map
          (fun j => max (linesAt a ((b.length - 1) + j)) (linesAt c ((b.length - 1) + j)) + 2)).sum ≤
        (getPaddings a b c).sassPaddings.getD (b.length - 1) 0 + linesAt b (b.length - 1) + 2)
    ∧ (c ≠ [] → c.length < a.length →
      ((List.range (a.length - (c.length - 1))).map
          (fun j => max (linesAt a ((c.length - 1) + j)) (linesAt b ((c.length - 1) + j)) + 2)).sum ≤
        (getPaddings a b c).cssPaddings.getD (c.length - 1) 0 + linesAt c (c.length - 1) + 2)
    ∧ (c ≠ [] → c.length < b.length →
      ((List.range (b.length - (c.length - 1))).map
          (fun j => max (linesAt a ((c.length - 1) + j)) (linesAt b ((c.length - 1) + j)) + 2)).sum ≤
        (getPaddings a b c).cssPaddings.getD (c.length - 1) 0 + linesAt c (c.length - 1) + 2) := by
  have l1 := Nat.le_max_left a.length (max b.length c.length)
  have l2 := Nat.le_max_left b.length c.length
  have l3 := Nat.le_max_right b.length c.length
  have l4 := Nat.le_max_right a.length (max b.length c.length)
  refine ⟨?_, ?_, ?_, ?_, ?_, ?_⟩
  · intro hne hlt
    have h0 : 0 < a.length := List.length_pos.mpr hne
    have hpad : (getPaddings a b c).scssPaddings.getD (a.length - 1) 0 =
        getPadding (isLastAt a (a.length - 1)) (b.drop (a.length - 1)) (c.drop (a.length - 1))
          (linesAt a (a.length - 1)) (maxLinesAt a b c (a.length - 1)) := by
      simp only [getPaddings]
      exact range_map_getD _ _ _ (by omega)
    rw [hpad]
    exact tail_padding_general a b c _ hne _
      (le_max_left (b.length - (a.length - 1)) (c.length - (a.length - 1)))
  · intro hne hlt
    have h0 : 0 < a.length := List.length_pos.mpr hne
    have hpad : (getPaddings a b c).scssPaddings.getD (a.length - 1) 0 =
        getPadding (isLastAt a (a.length - 1)) (b.drop (a.length - 1)) (c.drop (a.length - 1))
          (linesAt a (a.length - 1)) (maxLinesAt a b c (a.length - 1)) := by
      simp only [getPaddings]
      exact range_map_getD _ _ _ (by omega)
    rw [hpad]
    exact tail_padding_general a b c _ hne _
      (le_max_right (b.length - (a.length - 1)) (c.length - (a.length - 1)))
  · intro hne hlt
    have h0 : 0 < b.length := List.length_pos.mpr hne
    have hpad : (getPaddings a b c).sassPaddings.getD (b.length - 1) 0 =
        getPadding (isLastAt b (b.length - 1)) (a.drop (b.length - 1)) (c.drop (b.length - 1))
          (linesAt b (b.length - 1)) (maxLinesAt a b c (b.length - 1)) := by
      simp only [getPaddings]
      exact range_map_getD _ _ _ (by omega)
    rw [hpad]
    exact tail_padding_general b a c _ hne _
      (le_max_left (a.length - (b.length - 1)) (c.length - (b.length - 1)))
  · intro hne hlt
    have h0 : 0 < b.length := List.length_pos.mpr hne
    have hpad : (getPaddings a b c).sassPaddings.getD (b.length - 1) 0 =
        getPadding (isLastAt b (b.length - 1)) (a.drop (b.length - 1)) (c.drop (b.length - 1))
          (linesAt b (b.length - 1)) (maxLinesAt a b c (b.length - 1)) := by
      simp only [getPaddings]
      exact range_map_getD _ _ _ (by omega)
    rw [hpad]
    exact tail_padding_general b a c _ hne _
      (le_max_right (a.length - (b.length - 1)) (c.length - (b.length - 1)))
  · intro hne hlt
    have h0 : 0 < c.length := List.length_pos.mpr hne
    have hpad : (getPaddings a b c).cssPaddings.getD (c.length - 1) 0 =
        getPadding (isLastAt c (c.length - 1)) (a.drop (c.length - 1)) (b.drop (c.length - 1))
          (linesAt c (c.length - 1)) (maxLinesAt a b c (c.length - 1)) := by
      simp only [getPaddings]
      exact range_map_getD _ _ _ (by omega)
    rw [hpad]
    exact tail_padding_general c a b _ hne _
      (le_max_left (a.length - (c.length - 1)) (b.length - (c.length - 1)))
  · intro hne hlt
    have h0 : 0 < c.length := List.length_pos.mpr hne
    have hpad : (getPaddings a b c).cssPaddings.getD (c.length - 1) 0 =
        getPadding (isLastAt c (c.length - 1)) (a.drop (c.length - 1)) (b.drop (c.length - 1))
          (linesAt c (c.length - 1)) (maxLinesAt a b c (c.length - 1)) := by
      simp only [getPaddings]
      exact range_map_getD _ _ _ (by omega)
    rw [hpad]
    exact tail_padding_general c a b _ hne _
      (le_max_right (a.length - (c.length - 1)) (b.length - (c.length - 1)))

/-- C6 witness: the first pair of the amended statement at SCSS = ["a"],
Sass = ["b", "c"], CSS = []. -/
theorem C6_tail_padding_witness :
    ((List.range ((["b", "c"] : List String).length - ((["a"] : List String).length - 1))).map
        (fun j => max (linesAt ["b", "c"] (((["a"] : List String).length - 1) + j))
            (linesAt ([] : List String) (((["a"] : List String).length - 1) + j)) + 2)).sum ≤
      (getPaddings ["a"] ["b", "c"] []).scssPaddings.getD ((["a"] : List String).length - 1) 0 +
        linesAt ["a"] ((["a"] : List String).length - 1) + 2 :=
  (C6_tail_padding ["a"] ["b", "c"] []).1 (by decide) (by decide)

/-- C8 counterexample: in dual-syntax mode with input "a\n---\nb" (no `===`
block at all), auto-derivation requested, no compiled-output block supplied,
and a designated section set of two sections, the pipeline fails — but with
the malformed-input error of the parse stage, not the cannot-auto-generate
error the claim names. -/
theorem C8_counterexample :
    cssContentsOf ("a\n---\nb") none = none
    ∧ 1 < (designatedSectionsOf ("a\n---\nb") none).length
    ∧ ((generateCodeExample (fun _ _ => ("z")) ("a\n---\nb") true none).result =
        Except.error (CodeError.malformedInput ("Couldn\x27t find === in:\na\n---\nb")))
    ∧ ¬((generateCodeExample (fun _ _ => ("z")) ("a\n---\nb") true none).result =
        Except.error
          (CodeError.cannotAutoGenerate ("Can\x27t auto-generate CSS from more than one SCSS block."))) := by
  refine ⟨by decide, by decide, by decide, by decide⟩
